import Mathlib

/-!
# Finlit Registration Bot — verification of the conversation engine

Shallow embedding of the Finlit registration bot's conversation flow.
The repository contains two flow variants sharing almost all code:

* `finlit_registration_bot.py` + `storage.py` (MySQL variant): states
  NAME … MEET_FORMAT, PHONE; the phone is sanitized and stored in the
  record's `topics` column; completion saves, exports and notifies.
* the single-file SQLite variant (`unnamed/part_000`): states
  NAME … LANGUAGES_TEXT, TOPICS, MEET_FORMAT, SELF_DESC, CONFIRM with a
  pre-submit confirmation step offering confirm / restart buttons.

Python `context.user_data` (a per-user dict surviving conversation end) is
modelled as a structure of `Option`-valued fields; Python `set` as
`Finset String`; `sorted(...)` as insertion sort by code-point order
(Python compares strings by code points, as does `List Char`'s
lexicographic order); handler dispatch of `ConversationHandler`
(entry points with `allow_reentry=True`, per-state handlers, the
`/cancel` fallback, unmatched updates ignored, a raised exception leaving
the conversation state unchanged) as the total step functions `stepMysql`
and `stepSqlite`.
-/

/-! ## Python string primitives -/

/-- Python string `<=`: code-point lexicographic order, i.e. `≤` on the
underlying character lists. -/
def pyLE (s t : String) : Prop := s.data ≤ t.data

instance : DecidableRel pyLE := fun s t => inferInstanceAs (Decidable (s.data ≤ t.data))

instance : IsTrans String pyLE := ⟨fun _ _ _ h h' => le_trans h h'⟩

instance : IsAntisymm String pyLE := ⟨fun s t h h' => by
  cases s; cases t
  exact congrArg String.mk (le_antisymm h h')⟩

instance : IsTotal String pyLE := ⟨fun s t => le_total s.data t.data⟩

/-- Python `sorted(set_of_strings)`: the set's elements in ascending
code-point order.  Defined by lifting insertion sort to the underlying
multiset (sorting is invariant under permutation of the input). -/
def pySorted (s : Finset String) : List String :=
  Quot.liftOn s.val (fun l => l.insertionSort pyLE) (fun l₁ l₂ h =>
    @List.eq_of_perm_of_sorted String pyLE _ _ _
      (((l₁.perm_insertionSort pyLE).trans h).trans (l₂.perm_insertionSort pyLE).symm)
      (List.sorted_insertionSort pyLE l₁)
      (List.sorted_insertionSort pyLE l₂))

/-- Python `s.startswith(pre)`. -/
def pyStartswith (pre s : String) : Bool := pre.data.isPrefixOf s.data

/-- Split at the leftmost occurrence of `sep`: returns the characters
before it and the characters after it, or `none` when `sep` does not
occur. -/
def splitFirstAux (sep : List Char) : List Char → Option (List Char × List Char)
  | [] => none
  | c :: rest =>
    if sep.isPrefixOf (c :: rest) then some ([], (c :: rest).drop sep.length)
    else
      match splitFirstAux sep rest with
      | some (pre, post) => some (c :: pre, post)
      | none => none

/-- Python `s.split(sep, 1)[1]`: the part after the leftmost occurrence of
`sep`.  Every call site in the source first checks `s.startswith(...)` with
a prefix containing `sep`, so the separator is always present; the
`none` branch (where Python's `[1]` would raise) returns `s` and is
unreachable at those call sites. -/
def pyAfterFirst (sep s : String) : String :=
  match splitFirstAux sep.data s.data with
  | some (_, post) => ⟨post⟩
  | none => s

/-- Python truthiness of `dict.get(key)` for a string-valued key:
`None` and `""` are falsy. -/
def pyTruthy : Option String → Bool
  | none => false
  | some s => !(s == "")

/-- Python `s.strip()`: drop whitespace from both ends.  (Python also
strips a few rarer Unicode whitespace characters; this does not affect
any property proved below.) -/
def pyStrip (s : String) : String :=
  ⟨((s.data.dropWhile Char.isWhitespace).reverse.dropWhile Char.isWhitespace).reverse⟩

/-! ## Option tables (`finlit_registration_bot.py` lines 72–89,
`part_000` lines 186–203 — identical). -/

def NETWORKING_OPTIONS : List String :=
  ["Yangi tanishlar", "Hamkorlik imkoniyatlari", "Tajriba almashish", "Ilhom va g‘oyalar"]

def LANGUAGE_OPTIONS : List String :=
  ["O‘zbekcha", "Ruscha", "Inglizcha"]

def FORMAT_OPTIONS : List String :=
  ["Oflayn uchrashuv", "Onlayn format", "Gibrid"]

/-! ## Inline keyboards -/

/-- `InlineKeyboardButton(text=…, callback_data=…)`. -/
structure Button where
  text : String
  callback_data : String
deriving DecidableEq

/-- `make_multiselect_kb` (lines 111–128): one row per option, marked by
selection state, followed by an optional extra row with the free-text
escape and/or the done button. -/
def make_multiselect_kb (options : List String) (selected : Finset String)
    (with_done : Bool) (with_text_alt : Bool) : List (List Button) :=
  let rows := options.map (fun opt =>
    [Button.mk ((if opt ∈ selected then "☑️" else "⬜️") ++ " " ++ opt) ("opt::" ++ opt)])
  let extra :=
    (if with_text_alt then [Button.mk "✍️ Boshqa (yozib kiriting)" "alt::text"] else []) ++
    (if with_done then [Button.mk "✅ Tayyor" "done::ok"] else [])
  if extra.isEmpty then rows else rows ++ [extra]

/-- `make_singleselect_kb` (lines 130–133): one row per option with a
`pick::` payload. -/
def make_singleselect_kb (options : List String) : List (List Button) :=
  options.map (fun opt => [Button.mk opt ("pick::" ++ opt)])

/-- The selection-toggle applied inline by `on_networking_cb` and
`on_languages_cb` (lines 201–207 / 232–238): remove the option if
present, add it otherwise. -/
def toggle (selected : Finset String) (val : String) : Finset String :=
  if val ∈ selected then selected.erase val else insert val selected

/-- `sanitize_phone` (lines 154–160): keep `+` and digit characters only;
prepend `+` when the cleaned string is nonempty, does not already start
with `+`, and has at least 9 characters.  (Python's `str.isdigit` also
accepts non-ASCII decimal digits; this does not affect any property
proved below.) -/
def sanitize_phone (raw : String) : String :=
  let cleaned := raw.data.filter (fun ch => ch.isDigit || ch == '+')
  if cleaned ≠ [] ∧ cleaned.head? ≠ some '+' ∧ 9 ≤ cleaned.length then
    ⟨'+' :: cleaned⟩
  else ⟨cleaned⟩

/-! ## The per-user answer store (`context.user_data`) -/

/-- `context.user_data`: a per-user dict.  Each key the handlers ever
write is a field; `none` models an absent key.  The dict outlives the
conversation: completion does not clear it, `/start` and `/cancel` do. -/
structure UserData where
  full_name : Option String := none
  workplace : Option String := none
  career_field : Option String := none
  interests : Option String := none
  networking_selected : Option (Finset String) := none
  region : Option String := none
  languages_selected : Option (Finset String) := none
  languages_text : Option String := none
  topics : Option String := none
  meet_format : Option String := none
  self_desc : Option String := none
deriving DecidableEq

/-- `context.user_data.clear()` / a fresh dict. -/
def emptyUD : UserData := {}

/-! ## The completed record -/

/-- The `Registration` dataclass (`storage.py` lines 65–79,
`part_000` lines 122–136). -/
structure Registration where
  telegram_id : Int
  telegram_username : Option String
  full_name : String
  workplace : String
  career_field : String
  interests : String
  networking_goals : String
  region : String
  languages : String
  topics : String
  meet_format : String
  self_desc : String
  created_at : String
deriving DecidableEq

/-- `Registration.from_context` (`storage.py` lines 81–100, `part_000`
lines 138–157): snapshot of `context.user_data`, with multi-select sets
serialized as the comma-joined sorted element list and the supplementary
languages free text appended last when truthy.  The telegram user and
the timestamp are passed explicitly here (the Python code reads them
from `update.effective_user` and the clock). -/
def Registration.from_context (ud : UserData) (uid : Int) (uname : Option String)
    (now : String) : Registration :=
  { telegram_id := uid
    telegram_username := uname
    full_name := ud.full_name.getD ""
    workplace := ud.workplace.getD ""
    career_field := ud.career_field.getD ""
    interests := ud.interests.getD ""
    networking_goals := String.intercalate ", " (pySorted (ud.networking_selected.getD ∅))
    region := ud.region.getD ""
    languages := String.intercalate ", "
      (pySorted (ud.languages_selected.getD ∅) ++
        (if pyTruthy ud.languages_text then [ud.languages_text.getD ""] else []))
    topics := ud.topics.getD ""
    meet_format := ud.meet_format.getD ""
    self_desc := ud.self_desc.getD ""
    created_at := now }

/-! ## Inbound events and outbound effects -/

/-- One inbound update as dispatched by the `ConversationHandler`:
`/start` (entry point, also honoured mid-conversation because
`allow_reentry=True`), `/cancel` (fallback), a non-command text message
(`s` is the raw text; Telegram only delivers nonempty text, which
`filters.TEXT` re-checks), a shared contact, or an inline-button
callback with its `callback_data` payload. -/
inductive Ev where
  | start
  | cancel
  | text (s : String)
  | contact (phone : String)
  | callback (data : String)
deriving DecidableEq

/-- Outbound effects of one handler invocation: a text reply, a text
reply with an inline keyboard, an in-place edit of the current message's
keyboard (`edit_message_reply_markup`), a per-record summary view, or
the persistence of the completed record (`reg.save()`). -/
inductive Out where
  | msg (text : String)
  | msgKb (text : String) (kb : List (List Button))
  | editMarkup (kb : List (List Button))
  | summaryView
  | saved
deriving DecidableEq

/-- Result of dispatching one update: next conversation state (`none` =
no active conversation), the user-data dict, the emitted effects, and —
when the handler raised an uncaught exception — its description (the
application logs it; the conversation state is then left unchanged). -/
structure StepRes (σ : Type) where
  state : Option σ
  ud : UserData
  out : List Out
  error : Option String
deriving DecidableEq

/-- The `AttributeError` raised by `q.reply_text(...)` in
`on_networking_cb` (line 212 / line 320): `telegram.CallbackQuery` has
no `reply_text` attribute — the adjacent branches use
`q.message.reply_text`. -/
def callbackQueryReplyTextError : String :=
  "AttributeError: CallbackQuery object has no attribute reply_text"

/-! ## The MySQL-variant conversation engine
States `range(10)` (lines 92–103); handler table lines 408–424. -/

inductive MState where
  | NAME
  | WORKPLACE
  | CAREER
  | INTERESTS
  | NETWORKING
  | REGION
  | LANGUAGES
  | LANGUAGES_TEXT
  | MEET_FORMAT
  | PHONE
deriving DecidableEq

/-- Dispatch of one update by the MySQL-variant `ConversationHandler`
(`finlit_registration_bot.py`): entry point `/start` (checked first,
`allow_reentry=True`), per-state handlers, fallback `/cancel`; an update
matched by no handler is ignored. -/
def stepMysql (st : Option MState) (ud : UserData) (ev : Ev) : StepRes MState :=
  match ev, st with
  | .start, _ =>
    -- `start` (163–169): clear user_data, prompt for the name.
    ⟨some .NAME, emptyUD,
      [.msg "👋 Salom! Finlit Networking ro‘yxatdan o‘tish uchun quyidagi savollarga javob bering.\n\nBoshlaymiz. Avvalo, 👤 Ismingiz va familiyangizni yuboring:"],
      none⟩
  | .cancel, none => ⟨none, ud, [], none⟩
  | .cancel, some _ =>
    -- `cancel` fallback (398–401): clear user_data, end the conversation.
    ⟨none, emptyUD, [.msg "Bekor qilindi. /start orqali qayta boshlashingiz mumkin."], none⟩
  | _, none => ⟨none, ud, [], none⟩
  | .text s, some .NAME =>
    -- `ask_workplace` (171–174): store the stripped text, no validation.
    if s == "" then ⟨some .NAME, ud, [], none⟩
    else ⟨some .WORKPLACE, { ud with full_name := some (pyStrip s) },
      [.msg "🏢 Qaerda ishlaysiz yoki o‘qiysiz? (tashkilot/universitet nomi)"], none⟩
  | .text s, some .WORKPLACE =>
    -- `ask_career` (176–179)
    if s == "" then ⟨some .WORKPLACE, ud, [], none⟩
    else ⟨some .CAREER, { ud with workplace := some (pyStrip s) },
      [.msg "💼 Sizning kasbiy yo‘nalishingiz?"], none⟩
  | .text s, some .CAREER =>
    -- `ask_interests` (181–184)
    if s == "" then ⟨some .CAREER, ud, [], none⟩
    else ⟨some .INTERESTS, { ud with career_field := some (pyStrip s) },
      [.msg "📊 Qaysi moliyaviy yoki iqtisodiy sohalar siz uchun eng qiziqarli?"], none⟩
  | .text s, some .INTERESTS =>
    -- `ask_networking` (186–194): initialise the selection set to empty.
    if s == "" then ⟨some .INTERESTS, ud, [], none⟩
    else ⟨some .NETWORKING,
      { ud with interests := some (pyStrip s), networking_selected := some ∅ },
      [.msgKb "🤝 Networkingdan qanday maqsadda qatnashmoqchisiz? Bir nechta bandni tanlashingiz mumkin:"
        (make_multiselect_kb NETWORKING_OPTIONS ∅ true false)], none⟩
  | .callback d, some .NETWORKING =>
    -- `on_networking_cb` (196–215)
    let selected := ud.networking_selected.getD ∅
    if pyStartswith "opt::" d then
      let val := pyAfterFirst "::" d
      let selected' := toggle selected val
      ⟨some .NETWORKING, { ud with networking_selected := some selected' },
        [.editMarkup (make_multiselect_kb NETWORKING_OPTIONS selected' true false)], none⟩
    else if d == "done::ok" then
      if selected = ∅ then
        -- line 212: `q.reply_text(...)` raises; state not updated.
        ⟨some .NETWORKING, ud, [], some callbackQueryReplyTextError⟩
      else ⟨some .REGION, ud, [.msg "🌍 Qaysi hududdan qatnashyapsiz?"], none⟩
    else ⟨some .NETWORKING, ud, [], none⟩
  | .text s, some .REGION =>
    -- `ask_languages` (217–225)
    if s == "" then ⟨some .REGION, ud, [], none⟩
    else ⟨some .LANGUAGES,
      { ud with region := some (pyStrip s), languages_selected := some ∅ },
      [.msgKb "🗣 Qaysi tillarda muloqot qilish qulay? Bir nechta bandni tanlang yoki \"Boshqa\" ni bosing."
        (make_multiselect_kb LANGUAGE_OPTIONS ∅ true true)], none⟩
  | .callback d, some .LANGUAGES =>
    -- `on_languages_cb` (227–253)
    let selected := ud.languages_selected.getD ∅
    if pyStartswith "opt::" d then
      let val := pyAfterFirst "::" d
      let selected' := toggle selected val
      ⟨some .LANGUAGES, { ud with languages_selected := some selected' },
        [.editMarkup (make_multiselect_kb LANGUAGE_OPTIONS selected' true true)], none⟩
    else if d == "alt::text" then
      ⟨some .LANGUAGES_TEXT, ud,
        [.msg "✍️ Qaysi boshqa tillar? Matn ko‘rinishida yozing (masalan: Nemischa, Turkcha)."], none⟩
    else if d == "done::ok" then
      if selected = ∅ ∧ pyTruthy ud.languages_text = false then
        ⟨some .LANGUAGES, ud, [.msg "Iltimos, kamida bitta tilni tanlang yoki yozib yuboring."], none⟩
      else ⟨some .MEET_FORMAT, ud,
        [.msgKb "📱 Sizga qaysi format qulayroq:" (make_singleselect_kb FORMAT_OPTIONS)], none⟩
    else ⟨some .LANGUAGES, ud, [], none⟩
  | .text s, some .LANGUAGES_TEXT =>
    -- `languages_text_done` (255–259)
    if s == "" then ⟨some .LANGUAGES_TEXT, ud, [], none⟩
    else ⟨some .MEET_FORMAT, { ud with languages_text := some (pyStrip s) },
      [.msgKb "📱 Sizga qaysi format qulayroq:" (make_singleselect_kb FORMAT_OPTIONS)], none⟩
  | .callback d, some .MEET_FORMAT =>
    -- `on_format_cb` (261–278): ask for the phone next.
    if pyStartswith "pick::" d then
      ⟨some .PHONE, { ud with meet_format := some (pyAfterFirst "::" d) },
        [.msg "📞 Telefon raqamingizni yuboring (matn ko‘rinishida yoki tugma orqali ulashishingiz mumkin):"], none⟩
    else ⟨some .MEET_FORMAT, ud, [], none⟩
  | .text s, some .PHONE =>
    -- `on_phone` (280–325), text branch: strip, sanitize, validate.
    if s == "" then ⟨some .PHONE, ud, [], none⟩
    else
      let phone := sanitize_phone (pyStrip s)
      if phone == "" || phone.length < 7 then
        ⟨some .PHONE, ud,
          [.msg "❗️ Iltimos, to‘g‘ri telefon raqamini kiriting yoki tugma orqali ulashingiz mumkin."], none⟩
      else ⟨none, { ud with topics := some phone, self_desc := some "" },
        [.saved, .summaryView], none⟩
  | .contact p, some .PHONE =>
    -- `on_phone`, contact branch: `contact.phone_number` (empty is falsy,
    -- in which case `phone` stays `None` and sanitizes to `""`).
    let phone := sanitize_phone p
    if phone == "" || phone.length < 7 then
      ⟨some .PHONE, ud,
        [.msg "❗️ Iltimos, to‘g‘ri telefon raqamini kiriting yoki tugma orqali ulashingiz mumkin."], none⟩
    else ⟨none, { ud with topics := some phone, self_desc := some "" },
      [.saved, .summaryView], none⟩
  -- Updates matched by no handler of the current state (and by no
  -- fallback) are ignored: no state transition, no mutation.
  | .text _, some st => ⟨some st, ud, [], none⟩
  | .contact _, some st => ⟨some st, ud, [], none⟩
  | .callback _, some st => ⟨some st, ud, [], none⟩

/-- Iterating the dispatcher over a list of inbound events, threading the
conversation state and the user-data dict. -/
def runEvents {σ : Type} (step : Option σ → UserData → Ev → StepRes σ) :
    Option σ × UserData → List Ev → Option σ × UserData
  | p, [] => p
  | p, ev :: rest => runEvents step ((step p.1 p.2 ev).state, (step p.1 p.2 ev).ud) rest

/-- Event shapes the current MySQL-variant step does not expect: a text or
contact message in a button-driven step, a button callback in a text
step, an empty text (rejected by `filters.TEXT`), or a callback payload
that is none of the recognized `opt::`/`pick::`/`alt::text`/`done::ok`
tokens of the step. -/
def mismatchM (st : MState) (ev : Ev) : Bool :=
  match st, ev with
  | _, .start => false
  | _, .cancel => false
  | .NAME, .text s | .WORKPLACE, .text s | .CAREER, .text s | .INTERESTS, .text s
  | .REGION, .text s | .LANGUAGES_TEXT, .text s | .PHONE, .text s => s == ""
  | .NAME, _ | .WORKPLACE, _ | .CAREER, _ | .INTERESTS, _
  | .REGION, _ | .LANGUAGES_TEXT, _ => true
  | .NETWORKING, .callback d => !pyStartswith "opt::" d && !(d == "done::ok")
  | .NETWORKING, _ => true
  | .LANGUAGES, .callback d =>
      !pyStartswith "opt::" d && !(d == "alt::text") && !(d == "done::ok")
  | .LANGUAGES, _ => true
  | .MEET_FORMAT, .callback d => !pyStartswith "pick::" d
  | .MEET_FORMAT, _ => true
  | .PHONE, .callback _ => true
  | .PHONE, .contact _ => false

/-! ## The SQLite-variant conversation engine (`part_000`)
States `range(12)` (lines 206–219); handler table lines 510–528.  The
handlers up to `LANGUAGES` coincide with the MySQL variant; after the
languages step the flow asks for discussion topics, the meeting format
and a one-line self description, then shows a pre-submit confirmation
with confirm / restart buttons. -/

inductive SState where
  | NAME
  | WORKPLACE
  | CAREER
  | INTERESTS
  | NETWORKING
  | REGION
  | LANGUAGES
  | LANGUAGES_TEXT
  | TOPICS
  | MEET_FORMAT
  | SELF_DESC
  | CONFIRM
deriving DecidableEq

/-- Dispatch of one update by the SQLite-variant `ConversationHandler`
(`part_000`). -/
def stepSqlite (st : Option SState) (ud : UserData) (ev : Ev) : StepRes SState :=
  match ev, st with
  | .start, _ =>
    -- `start` (271–277)
    ⟨some .NAME, emptyUD,
      [.msg "👋 Salom! Finlit Networking ro‘yxatdan o‘tish uchun quyidagi savollarga javob bering.\n\nBoshlaymiz. Avvalo, 👤 Ismingiz va familiyangizni yuboring:"],
      none⟩
  | .cancel, none => ⟨none, ud, [], none⟩
  | .cancel, some _ =>
    -- `cancel` fallback (499–502)
    ⟨none, emptyUD, [.msg "Bekor qilindi. /start orqali qayta boshlashingiz mumkin."], none⟩
  | _, none => ⟨none, ud, [], none⟩
  | .text s, some .NAME =>
    -- `ask_workplace` (279–282)
    if s == "" then ⟨some .NAME, ud, [], none⟩
    else ⟨some .WORKPLACE, { ud with full_name := some (pyStrip s) },
      [.msg "🏢 Qaerda ishlaysiz yoki o‘qiysiz? (tashkilot/universitet nomi)"], none⟩
  | .text s, some .WORKPLACE =>
    -- `ask_career` (284–287)
    if s == "" then ⟨some .WORKPLACE, ud, [], none⟩
    else ⟨some .CAREER, { ud with workplace := some (pyStrip s) },
      [.msg "💼 Sizning kasbiy yo‘nalishingiz?"], none⟩
  | .text s, some .CAREER =>
    -- `ask_interests` (289–292)
    if s == "" then ⟨some .CAREER, ud, [], none⟩
    else ⟨some .INTERESTS, { ud with career_field := some (pyStrip s) },
      [.msg "📊 Qaysi moliyaviy yoki iqtisodiy sohalar siz uchun eng qiziqarli?"], none⟩
  | .text s, some .INTERESTS =>
    -- `ask_networking` (294–302)
    if s == "" then ⟨some .INTERESTS, ud, [], none⟩
    else ⟨some .NETWORKING,
      { ud with interests := some (pyStrip s), networking_selected := some ∅ },
      [.msgKb "🤝 Networkingdan qanday maqsadda qatnashmoqchisiz? Bir nechta bandni tanlashingiz mumkin:"
        (make_multiselect_kb NETWORKING_OPTIONS ∅ true false)], none⟩
  | .callback d, some .NETWORKING =>
    -- `on_networking_cb` (304–323); line 320 has the same
    -- `q.reply_text` slip as the MySQL variant.
    let selected := ud.networking_selected.getD ∅
    if pyStartswith "opt::" d then
      let val := pyAfterFirst "::" d
      let selected' := toggle selected val
      ⟨some .NETWORKING, { ud with networking_selected := some selected' },
        [.editMarkup (make_multiselect_kb NETWORKING_OPTIONS selected' true false)], none⟩
    else if d == "done::ok" then
      if selected = ∅ then
        ⟨some .NETWORKING, ud, [], some callbackQueryReplyTextError⟩
      else ⟨some .REGION, ud, [.msg "🌍 Qaysi hududdan qatnashyapsiz?"], none⟩
    else ⟨some .NETWORKING, ud, [], none⟩
  | .text s, some .REGION =>
    -- `ask_languages` (325–333)
    if s == "" then ⟨some .REGION, ud, [], none⟩
    else ⟨some .LANGUAGES,
      { ud with region := some (pyStrip s), languages_selected := some ∅ },
      [.msgKb "🗣 Qaysi tillarda muloqot qilish qulay? Bir nechta bandni tanlang yoki \"Boshqa\" ni bosing."
        (make_multiselect_kb LANGUAGE_OPTIONS ∅ true true)], none⟩
  | .callback d, some .LANGUAGES =>
    -- `on_languages_cb` (335–357)
    let selected := ud.languages_selected.getD ∅
    if pyStartswith "opt::" d then
      let val := pyAfterFirst "::" d
      let selected' := toggle selected val
      ⟨some .LANGUAGES, { ud with languages_selected := some selected' },
        [.editMarkup (make_multiselect_kb LANGUAGE_OPTIONS selected' true true)], none⟩
    else if d == "alt::text" then
      ⟨some .LANGUAGES_TEXT, ud,
        [.msg "✍️ Qaysi boshqa tillar? Matn ko‘rinishida yozing (masalan: Nemischa, Turkcha)."], none⟩
    else if d == "done::ok" then
      if selected = ∅ ∧ pyTruthy ud.languages_text = false then
        ⟨some .LANGUAGES, ud, [.msg "Iltimos, kamida bitta tilni tanlang yoki yozib yuboring."], none⟩
      else ⟨some .TOPICS, ud,
        [.msg "🚀 Finlit Networking davomida qaysi mavzular muhokama qilinishiga qiziqasiz?"], none⟩
    else ⟨some .LANGUAGES, ud, [], none⟩
  | .text s, some .LANGUAGES_TEXT =>
    -- `languages_text_done` (359–362)
    if s == "" then ⟨some .LANGUAGES_TEXT, ud, [], none⟩
    else ⟨some .TOPICS, { ud with languages_text := some (pyStrip s) },
      [.msg "🚀 Finlit Networking davomida qaysi mavzular muhokama qilinishiga qiziqasiz?"], none⟩
  | .text s, some .TOPICS =>
    -- `ask_format` (364–368)
    if s == "" then ⟨some .TOPICS, ud, [], none⟩
    else ⟨some .MEET_FORMAT, { ud with topics := some (pyStrip s) },
      [.msgKb "📱 Sizga qaysi format qulayroq:" (make_singleselect_kb FORMAT_OPTIONS)], none⟩
  | .callback d, some .MEET_FORMAT =>
    -- `on_format_cb` (370–378)
    if pyStartswith "pick::" d then
      ⟨some .SELF_DESC, { ud with meet_format := some (pyAfterFirst "::" d) },
        [.msg "✨ Bir og‘izda o‘zingizni qanday ifoda etgan bo‘lardingiz? (Masalan: \"Men – ...\")"], none⟩
    else ⟨some .MEET_FORMAT, ud, [], none⟩
  | .text s, some .SELF_DESC =>
    -- `confirm` (380–403): store the self description and show the
    -- pre-submit summary with confirm / restart buttons.
    if s == "" then ⟨some .SELF_DESC, ud, [], none⟩
    else ⟨some .CONFIRM, { ud with self_desc := some (pyStrip s) }, [.summaryView], none⟩
  | .callback d, some .CONFIRM =>
    -- `on_confirm_cb` (405–433)
    if d == "confirm::restart" then
      ⟨some .NAME, emptyUD, [.msg "Qaytadan boshlaymiz. 👤 Ismingiz va familiyangiz?"], none⟩
    else if d == "confirm::yes" then
      ⟨none, ud, [.saved, .summaryView], none⟩
    else ⟨some .CONFIRM, ud, [], none⟩
  | .text _, some st => ⟨some st, ud, [], none⟩
  | .contact _, some st => ⟨some st, ud, [], none⟩
  | .callback _, some st => ⟨some st, ud, [], none⟩

/-! ## The completion sink (`on_phone`, lines 299–325) -/

/-- The `for admin_id in ORGANIZER_IDS` notification loop (lines
315–323): each send is wrapped in its own `try`/`except` that logs the
failure, so the loop always proceeds to the next organizer.  `send`
models the transport; the result records each attempted organizer id and
whether its delivery succeeded. -/
def dmLoop (send : Int → Except String Unit) : List Int → List (Int × Bool)
  | [] => []
  | a :: rest =>
    (match send a with
     | .ok _ => (a, true)
     | .error _ => (a, false)) :: dmLoop send rest

/-- The completion path of `on_phone` after validation (lines 299–325):
`reg.save()` appends the row, `export_to_excel` is attempted under
`try`/`except` (logged on failure), then every organizer is notified via
`dmLoop`.  Returns the database rows, the export outcome, and the
notification attempts. -/
def on_phone_finalize (db : List Registration) (reg : Registration)
    (excel : Unit → Except String Unit) (admins : List Int)
    (send : Int → Except String Unit) :
    List Registration × Bool × List (Int × Bool) :=
  let db' := db ++ [reg]
  let excelOk := match excel () with
    | .ok _ => true
    | .error _ => false
  (db', excelOk, dmLoop send admins)

/-! ## A full valid pass through the MySQL-variant flow -/

/-- How the languages step is closed: with the confirm button when no
supplementary text is given, or with the free-text escape followed by
the supplementary text (which advances without a separate confirm, per
`languages_text_done`). -/
def ltextEvents : Option String → List Ev
  | none => [Ev.callback "done::ok"]
  | some s => [Ev.callback "alt::text", Ev.text s]

/-- The inbound events of one valid registration, up to (excluding) the
final phone message: start; the four free-text answers; the networking
toggles and their confirm; the region; the language toggles and their
closing events; then the format pick. -/
def fullFlowEvents (name wp career ints : String) (nt : List String) (region : String)
    (lt : List String) (ltext : Option String) (fmt : String) : List Ev :=
  [Ev.start, Ev.text name, Ev.text wp, Ev.text career, Ev.text ints] ++
  nt.map (fun t => Ev.callback ("opt::" ++ t)) ++
  [Ev.callback "done::ok", Ev.text region] ++
  lt.map (fun t => Ev.callback ("opt::" ++ t)) ++
  ltextEvents ltext ++
  [Ev.callback ("pick::" ++ fmt)]

/-- The user-data dict after the events of `fullFlowEvents` (answers
already trimmed): every step's field holds the submitted answer, the
selection sets are the toggles folded over the empty set, and the phone
step is still pending. -/
def flowUD (name wp career ints : String) (nt : List String) (region : String)
    (lt : List String) (ltext : Option String) (fmt : String) : UserData :=
  { full_name := some name
    workplace := some wp
    career_field := some career
    interests := some ints
    networking_selected := some (nt.foldl toggle ∅)
    region := some region
    languages_selected := some (lt.foldl toggle ∅)
    languages_text := ltext
    topics := none
    meet_format := some fmt
    self_desc := none }

/-! ## Supporting lemmas -/

theorem data_opt_append (t : String) :
    ("opt::" ++ t).data = 'o' :: 'p' :: 't' :: ':' :: ':' :: t.data := by
  simp [String.data_append]

theorem data_pick_append (t : String) :
    ("pick::" ++ t).data = 'p' :: 'i' :: 'c' :: 'k' :: ':' :: ':' :: t.data := by
  simp [String.data_append]

theorem pyStartswith_opt (t : String) : pyStartswith "opt::" ("opt::" ++ t) = true := by
  simp [pyStartswith, data_opt_append, List.isPrefixOf]

theorem pyAfterFirst_opt (t : String) : pyAfterFirst "::" ("opt::" ++ t) = t := by
  simp [pyAfterFirst, data_opt_append, splitFirstAux, List.isPrefixOf]

theorem pyStartswith_pick (t : String) : pyStartswith "pick::" ("pick::" ++ t) = true := by
  simp [pyStartswith, data_pick_append, List.isPrefixOf]

theorem pyAfterFirst_pick (t : String) : pyAfterFirst "::" ("pick::" ++ t) = t := by
  simp [pyAfterFirst, data_pick_append, splitFirstAux, List.isPrefixOf]

theorem take_len_of_ite {α : Type} (c : Prop) [Decidable c] (rows : List α) (extra : α) :
    List.take rows.length (if c then rows else rows ++ [extra]) = rows := by
  split
  · simp
  · exact List.take_left rows [extra]

theorem toggle_toggle (s : Finset String) (o : String) : toggle (toggle s o) o = s := by
  by_cases h : o ∈ s <;> simp [toggle, h, Finset.erase_insert, Finset.insert_erase]

theorem dmLoop_map_fst (send : Int → Except String Unit) (admins : List Int) :
    (dmLoop send admins).map Prod.fst = admins := by
  induction admins with
  | nil => rfl
  | cons a rest ih => cases h : send a <;> simp [dmLoop, h, ih]

theorem runEvents_append {σ : Type} (step : Option σ → UserData → Ev → StepRes σ)
    (p : Option σ × UserData) (l₁ l₂ : List Ev) :
    runEvents step p (l₁ ++ l₂) = runEvents step (runEvents step p l₁) l₂ := by
  induction l₁ generalizing p with
  | nil => rfl
  | cons e rest ih => simp [runEvents, ih]

theorem runEvents_net_toggles (ts : List String) (ud : UserData) (sel : Finset String)
    (h : ud.networking_selected = some sel) :
    runEvents stepMysql (some .NETWORKING, ud) (ts.map (fun t => Ev.callback ("opt::" ++ t))) =
      (some .NETWORKING, { ud with networking_selected := some (ts.foldl toggle sel) }) := by
  induction ts generalizing ud sel with
  | nil =>
    simp only [List.map_nil, runEvents, List.foldl_nil]
    cases ud
    simp only [UserData.networking_selected] at h
    simp [h]
  | cons t ts ih =>
    simp only [List.map_cons, runEvents, List.foldl_cons]
    rw [show stepMysql (some .NETWORKING) ud (Ev.callback ("opt::" ++ t)) =
        ⟨some .NETWORKING, { ud with networking_selected := some (toggle sel t) },
          [.editMarkup (make_multiselect_kb NETWORKING_OPTIONS (toggle sel t) true false)], none⟩ by
      simp [stepMysql, pyStartswith_opt, pyAfterFirst_opt, h]]
    exact ih _ _ rfl

theorem runEvents_lang_toggles (ts : List String) (ud : UserData) (sel : Finset String)
    (h : ud.languages_selected = some sel) :
    runEvents stepMysql (some .LANGUAGES, ud) (ts.map (fun t => Ev.callback ("opt::" ++ t))) =
      (some .LANGUAGES, { ud with languages_selected := some (ts.foldl toggle sel) }) := by
  induction ts generalizing ud sel with
  | nil =>
    simp only [List.map_nil, runEvents, List.foldl_nil]
    cases ud
    simp only [UserData.languages_selected] at h
    simp [h]
  | cons t ts ih =>
    simp only [List.map_cons, runEvents, List.foldl_cons]
    rw [show stepMysql (some .LANGUAGES) ud (Ev.callback ("opt::" ++ t)) =
        ⟨some .LANGUAGES, { ud with languages_selected := some (toggle sel t) },
          [.editMarkup (make_multiselect_kb LANGUAGE_OPTIONS (toggle sel t) true true)], none⟩ by
      simp [stepMysql, pyStartswith_opt, pyAfterFirst_opt, h]]
    exact ih _ _ rfl

theorem pyStartswith_opt_of_done : pyStartswith "opt::" "done::ok" = false := by decide

theorem pyStartswith_opt_of_alt : pyStartswith "opt::" "alt::text" = false := by decide

/-! ## Claims -/

/-- C3: a confirm ("done") on a multi-select step with an empty selection
is *meant* to be rejected with a prompt and never crash, but
`on_networking_cb` line 212 calls `q.reply_text(...)`, an attribute
`telegram.CallbackQuery` does not have (the adjacent branches correctly
use `q.message.reply_text`): the handler raises `AttributeError`, so no
rejection prompt is sent.  The state and answer store are still
unchanged (the dispatcher logs the exception and keeps the old state),
and after one option has been toggled the same event advances cleanly. -/
theorem c3_networking_empty_confirm_crashes :
    stepMysql (some .NETWORKING) { emptyUD with networking_selected := some ∅ }
        (.callback "done::ok") =
      ⟨some .NETWORKING, { emptyUD with networking_selected := some ∅ }, [],
        some callbackQueryReplyTextError⟩ ∧
    stepMysql (some .NETWORKING)
        { emptyUD with networking_selected := some {"Yangi tanishlar"} }
        (.callback "done::ok") =
      ⟨some .REGION, { emptyUD with networking_selected := some {"Yangi tanishlar"} },
        [.msg "🌍 Qaysi hududdan qatnashyapsiz?"], none⟩ := by
  constructor <;> decide

/-- C4: the selection toggle is its own inverse, the rendered multi-select
keyboard after a double toggle is identical to the one before, and the
option rows of the rendered keyboard always follow the fixed option-table
order (their payloads are `opt::<option>` in table order) regardless of
the selection state. -/
theorem c4_toggle_involutive_and_stable_render (s : Finset String) (o : String)
    (opts : List String) (wd wa : Bool) :
    toggle (toggle s o) o = s ∧
    make_multiselect_kb opts (toggle (toggle s o) o) wd wa = make_multiselect_kb opts s wd wa ∧
    ((make_multiselect_kb opts s wd wa).take opts.length).map
        (fun row => row.map Button.callback_data) =
      opts.map (fun opt => ["opt::" ++ opt]) := by
  refine ⟨toggle_toggle s o, by rw [toggle_toggle], ?_⟩
  have h1 : (opts.map (fun opt =>
      [Button.mk ((if opt ∈ s then "☑️" else "⬜️") ++ " " ++ opt) ("opt::" ++ opt)])).length =
      opts.length := List.length_map _ _
  simp only [make_multiselect_kb]
  rw [← h1, take_len_of_ite]
  simp [List.map_map, Function.comp]

/-- C5: `/cancel` in any active step clears the whole answer store and
ends the session, and `/start` — whether there is no session or an
in-flight one (`allow_reentry=True`) — always begins at the first step
with an empty answer store, replacing (never merging with) whatever was
collected before. -/
theorem c5_cancel_clears_and_start_replaces :
    (∀ (st : MState) (ud : UserData),
      (stepMysql (some st) ud .cancel).state = none ∧
        (stepMysql (some st) ud .cancel).ud = emptyUD) ∧
    (∀ (sess : Option MState) (ud : UserData),
      (stepMysql sess ud .start).state = some .NAME ∧
        (stepMysql sess ud .start).ud = emptyUD) := by
  constructor
  · intro st ud
    cases st <;> exact ⟨rfl, rfl⟩
  · intro sess ud
    cases sess <;> exact ⟨rfl, rfl⟩

/-- C6: in the SQLite flow variant, the restart button of the pre-submit
confirmation step discards the whole answer store and returns the
session to step 0 (re-emitting the step-0 name prompt) without ending
the session. -/
theorem c6_restart_from_confirmation (ud : UserData) :
    stepSqlite (some .CONFIRM) ud (.callback "confirm::restart") =
      ⟨some .NAME, emptyUD, [.msg "Qaytadan boshlaymiz. 👤 Ismingiz va familiyangiz?"], none⟩ := by
  simp [stepSqlite]

/-- C7: in both variants, a `pick::` callback on the single-select format
step immediately stores the picked option as the single `meet_format`
value and advances to the next step — no separate confirm action
exists for single-select. -/
theorem c7_single_select_pick_advances (ud : UserData) (opt : String) :
    stepMysql (some .MEET_FORMAT) ud (.callback ("pick::" ++ opt)) =
      ⟨some .PHONE, { ud with meet_format := some opt },
        [.msg "📞 Telefon raqamingizni yuboring (matn ko‘rinishida yoki tugma orqali ulashishingiz mumkin):"],
        none⟩ ∧
    stepSqlite (some .MEET_FORMAT) ud (.callback ("pick::" ++ opt)) =
      ⟨some .SELF_DESC, { ud with meet_format := some opt },
        [.msg "✨ Bir og‘izda o‘zingizni qanday ifoda etgan bo‘lardingiz? (Masalan: \"Men – ...\")"],
        none⟩ := by
  constructor <;> simp [stepMysql, stepSqlite, pyStartswith_pick, pyAfterFirst_pick]

/-- C9: after a completed session is persisted, the organizer-notification
loop wraps each send in its own try/except: the saved row is never rolled
back, and every organizer is attempted in order no matter which earlier
deliveries fail. -/
theorem c9_partial_notification_failure_not_fatal
    (db : List Registration) (reg : Registration) (excel : Unit → Except String Unit)
    (admins : List Int) (send : Int → Except String Unit) :
    (on_phone_finalize db reg excel admins send).1 = db ++ [reg] ∧
    (on_phone_finalize db reg excel admins send).2.2.map Prod.fst = admins :=
  ⟨rfl, dmLoop_map_fst send admins⟩

/-- C2 (counterexample): the claim says an answer that is empty after
trimming is rejected with the engine staying in place and storing
nothing, but the free-text handlers perform no validation at all: a
whitespace-only message at the name step is stored as `""` and the
engine advances to the workplace step. -/
theorem c2_counterexample_whitespace_accepted :
    (stepMysql (some .NAME) emptyUD (.text " ")).state = some .WORKPLACE ∧
    (stepMysql (some .NAME) emptyUD (.text " ")).ud.full_name = some "" := by
  constructor <;> decide

/-- C2 (amended): the free-text steps name / workplace / career /
interests / region / languages-text perform no emptiness validation:
every delivered text message (Telegram delivers only nonempty raw text)
is accepted, its trimmed value — possibly the empty string — is stored
under the step's field, and the engine always advances to the next
step. -/
theorem c2_amended_text_steps_never_reject (ud : UserData) (s : String) (h : s ≠ "") :
    stepMysql (some .NAME) ud (.text s) =
      ⟨some .WORKPLACE, { ud with full_name := some (pyStrip s) },
        [.msg "🏢 Qaerda ishlaysiz yoki o‘qiysiz? (tashkilot/universitet nomi)"], none⟩ ∧
    stepMysql (some .WORKPLACE) ud (.text s) =
      ⟨some .CAREER, { ud with workplace := some (pyStrip s) },
        [.msg "💼 Sizning kasbiy yo‘nalishingiz?"], none⟩ ∧
    stepMysql (some .CAREER) ud (.text s) =
      ⟨some .INTERESTS, { ud with career_field := some (pyStrip s) },
        [.msg "📊 Qaysi moliyaviy yoki iqtisodiy sohalar siz uchun eng qiziqarli?"], none⟩ ∧
    stepMysql (some .INTERESTS) ud (.text s) =
      ⟨some .NETWORKING, { ud with interests := some (pyStrip s), networking_selected := some ∅ },
        [.msgKb "🤝 Networkingdan qanday maqsadda qatnashmoqchisiz? Bir nechta bandni tanlashingiz mumkin:"
          (make_multiselect_kb NETWORKING_OPTIONS ∅ true false)], none⟩ ∧
    stepMysql (some .REGION) ud (.text s) =
      ⟨some .LANGUAGES, { ud with region := some (pyStrip s), languages_selected := some ∅ },
        [.msgKb "🗣 Qaysi tillarda muloqot qilish qulay? Bir nechta bandni tanlang yoki \"Boshqa\" ni bosing."
          (make_multiselect_kb LANGUAGE_OPTIONS ∅ true true)], none⟩ ∧
    stepMysql (some .LANGUAGES_TEXT) ud (.text s) =
      ⟨some .MEET_FORMAT, { ud with languages_text := some (pyStrip s) },
        [.msgKb "📱 Sizga qaysi format qulayroq:" (make_singleselect_kb FORMAT_OPTIONS)], none⟩ := by
  have hb : (s == "") = false := by simp [h]
  refine ⟨?_, ?_, ?_, ?_, ?_, ?_⟩ <;> simp [stepMysql, hb]

theorem c2_amended_witness :
    stepMysql (some MState.NAME) emptyUD (.text " ") =
      ⟨some .WORKPLACE, { emptyUD with full_name := some (pyStrip " ") },
        [.msg "🏢 Qaerda ishlaysiz yoki o‘qiysiz? (tashkilot/universitet nomi)"], none⟩ :=
  (c2_amended_text_steps_never_reject emptyUD " " (by decide)).1

/-- C8: an inbound event whose shape does not match what the current step
expects — the wrong message kind for the step, or a callback payload that
is none of the step's recognized tokens — is matched by no handler (or
falls through every branch of the matched handler returning `None`): the
conversation state and the answer store are unchanged, nothing is
emitted, and no exception is raised. -/
theorem c8_unexpected_event_shape_ignored (st : MState) (ud : UserData) (ev : Ev)
    (h : mismatchM st ev = true) :
    stepMysql (some st) ud ev = ⟨some st, ud, [], none⟩ := by
  cases ev <;> cases st <;> simp_all [mismatchM, stepMysql]

theorem c8_witness :
    mismatchM .MEET_FORMAT (.callback "done::ok") = true ∧
    stepMysql (some .MEET_FORMAT) emptyUD (.callback "done::ok") =
      ⟨some .MEET_FORMAT, emptyUD, [], none⟩ :=
  ⟨by decide, c8_unexpected_event_shape_ignored .MEET_FORMAT emptyUD (.callback "done::ok")
    (by decide)⟩

/-- C10: `sanitize_phone` keeps only `+` and digit characters and yields a
string starting with `+` whenever the cleaned input has at least 9
characters (prepending one exactly when the cleaned input lacks a
leading `+`); the phone step re-prompts and stores nothing when the
sanitized input is empty or shorter than 7 characters, and otherwise
stores the sanitized phone under `topics`, sets `self_desc` to the empty
string, and completes — for text input (trimmed first) and shared
contacts alike. -/
theorem c10_phone_sanitize_and_store (ud : UserData) (s p : String) (hs : s ≠ "") :
    ((sanitize_phone s).data.all (fun ch => ch.isDigit || ch == '+') = true) ∧
    (9 ≤ (s.data.filter (fun ch => ch.isDigit || ch == '+')).length →
      (sanitize_phone s).data.head? = some '+') ∧
    ((sanitize_phone (pyStrip s) == "" || (sanitize_phone (pyStrip s)).length < 7) = true →
      stepMysql (some .PHONE) ud (.text s) =
        ⟨some .PHONE, ud,
          [.msg "❗️ Iltimos, to‘g‘ri telefon raqamini kiriting yoki tugma orqali ulashingiz mumkin."],
          none⟩) ∧
    ((sanitize_phone (pyStrip s) == "" || (sanitize_phone (pyStrip s)).length < 7) = false →
      stepMysql (some .PHONE) ud (.text s) =
        ⟨none, { ud with topics := some (sanitize_phone (pyStrip s)), self_desc := some "" },
          [.saved, .summaryView], none⟩) ∧
    ((sanitize_phone p == "" || (sanitize_phone p).length < 7) = false →
      stepMysql (some .PHONE) ud (.contact p) =
        ⟨none, { ud with topics := some (sanitize_phone p), self_desc := some "" },
          [.saved, .summaryView], none⟩) ∧
    ((sanitize_phone p == "" || (sanitize_phone p).length < 7) = true →
      stepMysql (some .PHONE) ud (.contact p) =
        ⟨some .PHONE, ud,
          [.msg "❗️ Iltimos, to‘g‘ri telefon raqamini kiriting yoki tugma orqali ulashingiz mumkin."],
          none⟩) := by
  have hb : (s == "") = false := by simp [hs]
  refine ⟨?_, ?_, ?_, ?_, ?_, ?_⟩
  · simp only [sanitize_phone]
    split
    · simp only [List.all_cons, List.all_eq_true, Bool.and_eq_true]
      refine ⟨by decide, ?_⟩
      intro c hc
      exact (List.mem_filter.mp hc).2
    · simp only [List.all_eq_true]
      intro c hc
      exact (List.mem_filter.mp hc).2
  · intro h9
    simp only [sanitize_phone]
    split
    · rfl
    · rename_i hcond
      push_neg at hcond
      have hne : s.data.filter (fun ch => ch.isDigit || ch == '+') ≠ [] := by
        intro hnil
        rw [hnil] at h9
        simp at h9
      have := hcond hne
      rcases Decidable.em
          ((s.data.filter (fun ch => ch.isDigit || ch == '+')).head? = some '+') with he | he
      · exact he
      · exact absurd h9 (by simpa using this he)
  · intro hcond
    simp [stepMysql, hb, hcond]
  · intro hcond
    simp [stepMysql, hb, hcond]
  · intro hcond
    simp [stepMysql, hcond]
  · intro hcond
    simp [stepMysql, hcond]

/-- C1: for every sequence of valid answers supplied in step order —
nonempty trimmed free texts, networking toggles whose folded selection
is nonempty followed by confirm, language toggles followed either by
confirm (nonempty selection) or by the free-text escape with a nonempty
supplementary text, one format pick, and a phone that sanitizes to at
least 7 characters — the engine walks `NAME … MEET_FORMAT` into `PHONE`
with every answer stored, the phone message completes the conversation
(ending it and handing the record to the sink), and the resulting
record holds exactly one value per step field, each equal to the
submitted answer, with each multi-select field serialized as the
comma-joined sorted list of toggled options and the supplementary
language text appended last. -/
theorem c1_valid_flow_reaches_completion
    (name wp career ints region fmt phone : String)
    (nt lt : List String) (ltext : Option String)
    (uid : Int) (uname : Option String) (now : String)
    (hname : name ≠ "" ∧ pyStrip name = name)
    (hwp : wp ≠ "" ∧ pyStrip wp = wp)
    (hcareer : career ≠ "" ∧ pyStrip career = career)
    (hints : ints ≠ "" ∧ pyStrip ints = ints)
    (hregion : region ≠ "" ∧ pyStrip region = region)
    (hnet : nt.foldl toggle ∅ ≠ ∅)
    (hlang : match ltext with
      | none => lt.foldl toggle ∅ ≠ ∅
      | some extraText => extraText ≠ "" ∧ pyStrip extraText = extraText)
    (hphone : phone ≠ "" ∧
      (sanitize_phone (pyStrip phone) == "" ||
        (sanitize_phone (pyStrip phone)).length < 7) = false) :
    runEvents stepMysql (none, emptyUD)
        (fullFlowEvents name wp career ints nt region lt ltext fmt) =
      (some MState.PHONE, flowUD name wp career ints nt region lt ltext fmt) ∧
    stepMysql (some MState.PHONE) (flowUD name wp career ints nt region lt ltext fmt)
        (.text phone) =
      ⟨none,
        { flowUD name wp career ints nt region lt ltext fmt with
            topics := some (sanitize_phone (pyStrip phone)), self_desc := some "" },
        [.saved, .summaryView], none⟩ ∧
    Registration.from_context
        { flowUD name wp career ints nt region lt ltext fmt with
            topics := some (sanitize_phone (pyStrip phone)), self_desc := some "" }
        uid uname now =
      { telegram_id := uid
        telegram_username := uname
        full_name := name
        workplace := wp
        career_field := career
        interests := ints
        networking_goals := String.intercalate ", " (pySorted (nt.foldl toggle ∅))
        region := region
        languages := String.intercalate ", " (pySorted (lt.foldl toggle ∅) ++ ltext.toList)
        topics := sanitize_phone (pyStrip phone)
        meet_format := fmt
        self_desc := ""
        created_at := now } := by
  obtain ⟨hname1, hname2⟩ := hname
  obtain ⟨hwp1, hwp2⟩ := hwp
  obtain ⟨hcareer1, hcareer2⟩ := hcareer
  obtain ⟨hints1, hints2⟩ := hints
  obtain ⟨hregion1, hregion2⟩ := hregion
  obtain ⟨hphone1, hphone2⟩ := hphone
  have hnameb : (name == "") = false := by simp [hname1]
  have hwpb : (wp == "") = false := by simp [hwp1]
  have hcareerb : (career == "") = false := by simp [hcareer1]
  have hintsb : (ints == "") = false := by simp [hints1]
  have hregionb : (region == "") = false := by simp [hregion1]
  have hphoneb : (phone == "") = false := by simp [hphone1]
  refine ⟨?_, ?_, ?_⟩
  · have r1 : runEvents stepMysql (none, emptyUD)
        [Ev.start, Ev.text name, Ev.text wp, Ev.text career, Ev.text ints] =
        (some MState.NETWORKING,
          (⟨some name, some wp, some career, some ints, some ∅,
            none, none, none, none, none, none⟩ : UserData)) := by
      simp [runEvents, stepMysql, emptyUD, hnameb, hwpb, hcareerb, hintsb,
        hname2, hwp2, hcareer2, hints2]
    have r2 : runEvents stepMysql (none, emptyUD)
        ([Ev.start, Ev.text name, Ev.text wp, Ev.text career, Ev.text ints] ++
          nt.map (fun t => Ev.callback ("opt::" ++ t))) =
        (some MState.NETWORKING,
          (⟨some name, some wp, some career, some ints, some (nt.foldl toggle ∅),
            none, none, none, none, none, none⟩ : UserData)) := by
      rw [runEvents_append, r1,
        runEvents_net_toggles nt
          (⟨some name, some wp, some career, some ints, some ∅,
            none, none, none, none, none, none⟩ : UserData) ∅ rfl]
    have r3 : runEvents stepMysql (none, emptyUD)
        ([Ev.start, Ev.text name, Ev.text wp, Ev.text career, Ev.text ints] ++
          nt.map (fun t => Ev.callback ("opt::" ++ t)) ++
          [Ev.callback "done::ok", Ev.text region]) =
        (some MState.LANGUAGES,
          (⟨some name, some wp, some career, some ints, some (nt.foldl toggle ∅),
            some region, some ∅, none, none, none, none⟩ : UserData)) := by
      rw [runEvents_append, r2]
      simp [runEvents, stepMysql, pyStartswith_opt_of_done, hnet, hregionb, hregion2]
    have r4 : runEvents stepMysql (none, emptyUD)
        ([Ev.start, Ev.text name, Ev.text wp, Ev.text career, Ev.text ints] ++
          nt.map (fun t => Ev.callback ("opt::" ++ t)) ++
          [Ev.callback "done::ok", Ev.text region] ++
          lt.map (fun t => Ev.callback ("opt::" ++ t))) =
        (some MState.LANGUAGES,
          (⟨some name, some wp, some career, some ints, some (nt.foldl toggle ∅),
            some region, some (lt.foldl toggle ∅), none, none, none, none⟩ : UserData)) := by
      rw [runEvents_append, r3,
        runEvents_lang_toggles lt
          (⟨some name, some wp, some career, some ints, some (nt.foldl toggle ∅),
            some region, some ∅, none, none, none, none⟩ : UserData) ∅ rfl]
    have r5 : runEvents stepMysql (none, emptyUD)
        ([Ev.start, Ev.text name, Ev.text wp, Ev.text career, Ev.text ints] ++
          nt.map (fun t => Ev.callback ("opt::" ++ t)) ++
          [Ev.callback "done::ok", Ev.text region] ++
          lt.map (fun t => Ev.callback ("opt::" ++ t)) ++
          ltextEvents ltext) =
        (some MState.MEET_FORMAT,
          (⟨some name, some wp, some career, some ints, some (nt.foldl toggle ∅),
            some region, some (lt.foldl toggle ∅), ltext, none, none, none⟩ : UserData)) := by
      rw [runEvents_append, r4]
      rcases ltext with _ | s
      · simp only [ltextEvents]
        simp [runEvents, stepMysql, pyStartswith_opt_of_done, hlang, pyTruthy]
      · obtain ⟨hs1, hs2⟩ := hlang
        have hsb : (s == "") = false := by simp [hs1]
        simp only [ltextEvents]
        simp [runEvents, stepMysql, pyStartswith_opt_of_alt, hsb, hs2]
    simp only [fullFlowEvents]
    rw [runEvents_append, r5]
    simp [runEvents, stepMysql, pyStartswith_pick, pyAfterFirst_pick, flowUD]
  · simp [stepMysql, hphoneb, hphone2, flowUD]
  · rcases ltext with _ | s
    · simp [Registration.from_context, flowUD, pyTruthy]
    · obtain ⟨hs1, hs2⟩ := hlang
      have hsb : (s == "") = false := by simp [hs1]
      simp [Registration.from_context, flowUD, pyTruthy, hsb]

theorem c1_witness :
    runEvents stepMysql (none, emptyUD)
        (fullFlowEvents "Jane Doe" "Finlit" "Tahlilchi" "Fintech"
          ["Yangi tanishlar", "Hamkorlik imkoniyatlari"] "Toshkent"
          ["O‘zbekcha", "Inglizcha"] none "Gibrid") =
      (some MState.PHONE,
        flowUD "Jane Doe" "Finlit" "Tahlilchi" "Fintech"
          ["Yangi tanishlar", "Hamkorlik imkoniyatlari"] "Toshkent"
          ["O‘zbekcha", "Inglizcha"] none "Gibrid") ∧
    Registration.from_context
        { flowUD "Jane Doe" "Finlit" "Tahlilchi" "Fintech"
            ["Yangi tanishlar", "Hamkorlik imkoniyatlari"] "Toshkent"
            ["O‘zbekcha", "Inglizcha"] none "Gibrid" with
          topics := some (sanitize_phone (pyStrip "+998901234567")), self_desc := some "" }
        7 (some "jane") "2026-01-01 10:00:00" =
      { telegram_id := 7
        telegram_username := some "jane"
        full_name := "Jane Doe"
        workplace := "Finlit"
        career_field := "Tahlilchi"
        interests := "Fintech"
        networking_goals := "Hamkorlik imkoniyatlari, Yangi tanishlar"
        region := "Toshkent"
        languages := "Inglizcha, O‘zbekcha"
        topics := "+998901234567"
        meet_format := "Gibrid"
        self_desc := ""
        created_at := "2026-01-01 10:00:00" } := by
  have h := c1_valid_flow_reaches_completion "Jane Doe" "Finlit" "Tahlilchi" "Fintech"
    "Toshkent" "Gibrid" "+998901234567"
    ["Yangi tanishlar", "Hamkorlik imkoniyatlari"] ["O‘zbekcha", "Inglizcha"] none
    7 (some "jane") "2026-01-01 10:00:00"
    ⟨by decide, by decide⟩ ⟨by decide, by decide⟩ ⟨by decide, by decide⟩
    ⟨by decide, by decide⟩ ⟨by decide, by decide⟩ (by decide) (by decide)
    ⟨by decide, by decide⟩
  refine ⟨h.1, ?_⟩
  rw [h.2.2]
  refine Registration.mk.injEq .. |>.mpr ?_
  refine ⟨rfl, rfl, rfl, rfl, rfl, rfl, ?_, rfl, ?_, by decide, rfl, rfl, rfl⟩
  · decide
  · decide

theorem c10_witness :
    stepMysql (some MState.PHONE) emptyUD (.text "+998 90 123-45-67") =
      ⟨none, { emptyUD with topics := some "+998901234567", self_desc := some "" },
        [.saved, .summaryView], none⟩ ∧
    stepMysql (some MState.PHONE) emptyUD (.contact "12") =
      ⟨some MState.PHONE, emptyUD,
        [.msg "❗️ Iltimos, to‘g‘ri telefon raqamini kiriting yoki tugma orqali ulashingiz mumkin."],
        none⟩ :=
  ⟨(c10_phone_sanitize_and_store emptyUD "+998 90 123-45-67" "12" (by decide)).2.2.2.1 (by decide),
   (c10_phone_sanitize_and_store emptyUD "+998 90 123-45-67" "12" (by decide)).2.2.2.2.2 (by decide)⟩
